import Mathlib

/-!
Shallow embedding of `src/api/vision.py` (Nexus Vision API).

The module defines a single HTTP handler class with `do_GET` (health check),
`do_POST` (signal extraction via an external vision-inference service) and
`do_OPTIONS`.  The embedding below models:

* bytes as natural numbers (`Nat`, meaningful values `< 256`);
* JSON values (`Json`) as produced by `json.loads`;
* the standard base64 codec used via `base64.b64encode` / `base64.b64decode`
  (Python semantics: on decode, characters outside the alphabet are discarded,
  the kept length must be a multiple of four, data stops at the first pad);
* the external collaborators as explicit oracles: the dynamic
  `import google.generativeai` (an `Except` outcome), `json.loads`
  (a `LoadsOutcome`-valued function, distinguishing `json.JSONDecodeError`
  from other exceptions such as `UnicodeDecodeError`, because the source
  catches only `json.JSONDecodeError`), and `model.generate_content`
  (a function from content parts to `Except String String`);
* the handler itself as the total functions `doGET` / `doPOSTBody` / `doPOST`,
  mirroring the control flow of the source line by line, with the outer
  `try/except Exception` of `do_POST` modelled by the `Except` wrapper in
  `doPOST`.
-/

namespace NexusVision

/-- JSON values, as returned by the `json.loads` call in `do_POST`
(line 69 of `src/api/vision.py`).  Objects keep their fields as an
association list. -/
inductive Json where
  | obj (fields : List (String × Json))
  | arr (elems : List Json)
  | str (s : String)
  | num (n : Int)
  | bool (b : Bool)
  | null

/-- Lookup of a field in a JSON object, modelling `data.get("image")`. -/
def lookupField (fields : List (String × Json)) (k : String) : Option Json :=
  match fields.find? (fun p => p.fst == k) with
  | some p => some p.snd
  | none => none

/-- Python truthiness of a JSON value (`if not image_base64`, line 71):
`None`, `False`, `0`, `""`, `[]` and `\x7b\x7d` are falsy. -/
def jsonFalsy : Json → Bool
  | Json.null => true
  | Json.bool b => !b
  | Json.num n => n == 0
  | Json.str s => s == ""
  | Json.arr l => l.isEmpty
  | Json.obj l => l.isEmpty

/-- Python truthiness of the result of `data.get("image")`: a missing key
yields `None`, which is falsy. -/
def pyFalsyOpt : Option Json → Bool
  | none => true
  | some v => jsonFalsy v

/-- Whether a JSON value is an object (a Python `dict`). -/
def jsonIsObj : Json → Bool
  | Json.obj _ => true
  | _ => false

/-- Python type name of a JSON value, used in the `AttributeError` text
raised by `data.get` when `data` is not a `dict`. -/
def jsonTypeName : Json → String
  | Json.obj _ => "dict"
  | Json.arr _ => "list"
  | Json.str _ => "str"
  | Json.num _ => "int"
  | Json.bool _ => "bool"
  | Json.null => "NoneType"

/-- Message of the `AttributeError` raised by `data.get("image")` when the
parsed JSON value is not an object. -/
def noGetAttrMsg (v : Json) : String :=
  "\x27" ++ jsonTypeName v ++ "\x27 object has no attribute \x27get\x27"

/-! ## Base64 (model of `base64.b64encode` / `base64.b64decode`) -/

/-- The standard base64 alphabet. -/
def b64AlphabetList : List Char :=
  "ABCDEFGHIJKLMNOPQRSTUVWXYZabcdefghijklmnopqrstuvwxyz0123456789+/".data

/-- Index of a character in a list, or `none`. -/
def charIdx : List Char → Char → Option Nat
  | [], _ => none
  | c :: cs, d => if c == d then some 0 else (charIdx cs d).map (fun n => n + 1)

/-- Value of a base64 alphabet character (`none` for non-alphabet chars). -/
def b64charVal (c : Char) : Option Nat := charIdx b64AlphabetList c

/-- Character encoding a 6-bit value. -/
def sextetChar (n : Nat) : Char := b64AlphabetList.getD n 'A'

/-- Characters of the base64 encoding of a byte list (three bytes become
four sextet characters; final groups of one or two bytes are padded
with `=`). -/
def b64encodeChars : List Nat → List Char
  | a :: b :: c :: rest =>
      sextetChar (a / 4) :: sextetChar ((a % 4) * 16 + b / 16) ::
      sextetChar ((b % 16) * 4 + c / 64) :: sextetChar (c % 64) ::
      b64encodeChars rest
  | [a, b] => [sextetChar (a / 4), sextetChar ((a % 4) * 16 + b / 16),
      sextetChar ((b % 16) * 4), '=']
  | [a] => [sextetChar (a / 4), sextetChar ((a % 4) * 16), '=', '=']
  | [] => []

/-- Model of `base64.b64encode(body).decode("utf-8")`: the base64 text of a
byte list. -/
def b64encode (bs : List Nat) : String := String.mk (b64encodeChars bs)

/-- Data sextets of the encoding (the non-pad characters, as values). -/
def encSextets : List Nat → List Nat
  | a :: b :: c :: rest =>
      a / 4 :: ((a % 4) * 16 + b / 16) :: ((b % 16) * 4 + c / 64) :: c % 64 ::
      encSextets rest
  | [a, b] => [a / 4, (a % 4) * 16 + b / 16, (b % 16) * 4]
  | [a] => [a / 4, (a % 4) * 16]
  | [] => []

/-- Bytes reconstructed from a list of data sextets (groups of four sextets
give three bytes; a trailing group of two or three sextets gives one or two
bytes). -/
def decodeSextets : List Nat → List Nat
  | a :: b :: c :: d :: rest =>
      (a * 4 + b / 16) :: ((b % 16) * 16 + c / 4) :: ((c % 4) * 64 + d) ::
      decodeSextets rest
  | [a, b] => [a * 4 + b / 16]
  | [a, b, c] => [a * 4 + b / 16, (b % 16) * 16 + c / 4]
  | _ => []

/-- Characters kept by Python `b64decode` before the padding check:
alphabet characters and the pad `=` (all others are discarded). -/
def keepChar (c : Char) : Bool := (b64charVal c).isSome || c == '='

/-- Whether a character is not the pad character. -/
def notPad (c : Char) : Bool := c != '='

/-- Model of `base64.b64decode` on text, with Python default semantics:
discard characters outside the alphabet and pad, require the kept length to
be a multiple of four, take data characters up to the first pad, and reject
a data length that is one more than a multiple of four. -/
def b64decode (s : String) : Except String (List Nat) :=
  if ((s.data.filter keepChar).length % 4 == 0) then
    if ((((s.data.filter keepChar).takeWhile notPad).filterMap b64charVal).length % 4 == 1) then
      Except.error "Invalid base64-encoded string: number of data characters cannot be 1 more than a multiple of 4"
    else
      Except.ok (decodeSextets (((s.data.filter keepChar).takeWhile notPad).filterMap b64charVal))
  else
    Except.error "Incorrect padding"

/-! ## String helpers (models of `str.strip` and the `in` operator) -/

/-- Whitespace characters stripped by Python `str.strip()` (ASCII part). -/
def pySpace (c : Char) : Bool :=
  c == ' ' || c == '\t' || c == '\n' || c == '\r' ||
  c == Char.ofNat 11 || c == Char.ofNat 12

/-- Model of `response.text.strip()` (line 92): remove leading and trailing
whitespace. -/
def pyStrip (s : String) : String :=
  String.mk (((s.data.dropWhile pySpace).reverse.dropWhile pySpace).reverse)

/-- Whether `n` is a prefix of `h`, as a boolean on character lists. -/
def startsWithL : List Char → List Char → Bool
  | [], _ => true
  | _ :: _, [] => false
  | a :: as, b :: bs => a == b && startsWithL as bs

/-- Whether `n` occurs as a contiguous sublist of the second argument. -/
def containsSubL (n : List Char) : List Char → Bool
  | [] => n.isEmpty
  | c :: rest => startsWithL n (c :: rest) || containsSubL n rest

/-- Model of the Python substring test `needle in hay` on `str`
(line 98: `"NO_SIGNAL_FOUND" not in extracted_text`). -/
def containsSub (hay needle : String) : Bool := containsSubL needle.data hay.data

/-! ## Requests, responses and oracles -/

/-- A POST request as seen by the handler: the declared `Content-Length`
header (absent means the default `0` of `self.headers.get` at line 60) and
the bytes available on the request stream (`self.rfile`). -/
structure Request where
  contentLength : Option Nat
  body : List Nat

/-- The inputs of `do_GET` that could conceivably matter: request path,
query string and headers.  The source consults none of them. -/
structure GetRequest where
  path : String
  queryString : String
  headers : List (String × String)

/-- An HTTP response produced by the handler: status code, the two headers
set by `_send_json` (and by `do_GET`), and the JSON body. -/
structure Response where
  status : Nat
  contentType : String
  cors : String
  body : Json

/-- Model of `_send_json` (lines 112-117). -/
def sendJson (status : Nat) (body : Json) : Response :=
  { status := status, contentType := "application/json", cors := "*", body := body }

/-- Model of `_send_error` (lines 119-120). -/
def sendError (status : Nat) (message : String) : Response :=
  sendJson status (Json.obj [("success", Json.bool false), ("error", Json.str message)])

/-- Outcome of the `json.loads(body)` call (line 69).  The source catches
only `json.JSONDecodeError`; any other exception (for example the
`UnicodeDecodeError` raised when the body bytes are not valid UTF-8)
propagates to the blanket handler. -/
inductive LoadsOutcome where
  | ok (v : Json)
  | jsonErr (msg : String)
  | otherErr (msg : String)

/-- A content part passed to `model.generate_content` (line 91): either the
text prompt or an image blob with its MIME type. -/
inductive Part where
  | text (s : String)
  | inlineData (mime : String) (data : List Nat)

/-- The image payload selected by the JSON-parsing step: either the value of
the `image` field of the parsed JSON object, or the raw body re-encoded as
base64 text. -/
inductive Payload where
  | fromJson (v : Json)
  | raw (s : String)

/-- The verbatim extraction prompt `SIGNAL_EXTRACTION_PROMPT`
(lines 12-30 of `src/api/vision.py`). -/
def SIGNAL_EXTRACTION_PROMPT : String :=
  "\nAnalyze this trading signal image and extract the following information if present:\n- Symbol (e.g., XAUUSD, EURUSD, GOLD, etc.)\n- Action (BUY or SELL)\n- Entry price or entry zone (range)\n- Stop Loss (SL)\n- Take Profit levels (TP1, TP2, TP3, etc.)\n\nReturn ONLY the extracted text in a simple format like:\nSYMBOL ACTION @ ENTRY\nSL: [value]\nTP1: [value]\nTP2: [value]\n...\n\nIf no trading signal is found in the image, return: NO_SIGNAL_FOUND\n\nBe concise. Return only the signal data, no explanations.\n"

/-- Message of the 400 error for a missing or empty `image` field
(line 72; `\x27` is the ASCII apostrophe). -/
def missingImageMsg : String := "Missing \x27image\x27 field in request"

/-- Model of lines 68-75: parse the body as JSON inside
`try ... except json.JSONDecodeError`.  On a JSON syntax error the raw body
is re-encoded as the base64 payload; on any other `json.loads` exception the
error propagates; on success, `data.get("image")` raises `AttributeError`
when `data` is not a dict, and a missing or falsy `image` value produces the
400 response. -/
def parseStage (loads : List Nat → LoadsOutcome) (body : List Nat) :
    Except String (Sum Response Payload) :=
  match loads body with
  | LoadsOutcome.jsonErr _ => Except.ok (Sum.inr (Payload.raw (b64encode body)))
  | LoadsOutcome.otherErr m => Except.error m
  | LoadsOutcome.ok data =>
    match data with
    | Json.obj fields =>
      match lookupField fields "image" with
      | none => Except.ok (Sum.inl (sendError 400 missingImageMsg))
      | some v =>
        if jsonFalsy v then Except.ok (Sum.inl (sendError 400 missingImageMsg))
        else Except.ok (Sum.inr (Payload.fromJson v))
    | _ => Except.error (noGetAttrMsg data)

/-- Model of line 82, `base64.b64decode(image_base64)`: the payload is either
the string from the JSON `image` field (a non-string value raises
`TypeError`) or the re-encoded raw body. -/
def decodePayload : Payload → Except String (List Nat)
  | Payload.raw s => b64decode s
  | Payload.fromJson (Json.str s) => b64decode s
  | Payload.fromJson _ =>
      Except.error "argument should be a bytes-like object or ASCII string"

/-- Body of the `try` block of `do_POST` (lines 49-99).  `imp` is the
outcome of `import google.generativeai`; `apiKey` is
`os.environ.get("GEMINI_API_KEY")`; `loads` and `generate` are the
`json.loads` and `model.generate_content` oracles.  An `Except.error`
result is an exception reaching the blanket handler. -/
def doPOSTBody (imp : Except String Unit) (apiKey : Option String)
    (loads : List Nat → LoadsOutcome)
    (generate : List Part → Except String String)
    (req : Request) : Except String Response :=
  match imp with
  | Except.error e => Except.error e
  | Except.ok _ =>
    if (apiKey.getD "") == "" then
      Except.ok (sendError 500 "GEMINI_API_KEY not configured")
    else
      if (req.contentLength.getD 0) == 0 then
        Except.ok (sendError 400 "No image data provided")
      else
        match parseStage loads (req.body.take (req.contentLength.getD 0)) with
        | Except.error e => Except.error e
        | Except.ok (Sum.inl resp) => Except.ok resp
        | Except.ok (Sum.inr payload) =>
          match decodePayload payload with
          | Except.error e => Except.error e
          | Except.ok imageBytes =>
            match generate [Part.text SIGNAL_EXTRACTION_PROMPT,
                Part.inlineData "image/jpeg" imageBytes] with
            | Except.error e => Except.error e
            | Except.ok text =>
              Except.ok (sendJson 200 (Json.obj
                [("success", Json.bool true),
                 ("extracted_text", Json.str (pyStrip text)),
                 ("is_signal",
                  Json.bool (!(containsSub (pyStrip text) "NO_SIGNAL_FOUND")))]))

/-- Model of `do_POST` (lines 47-102): the `try` body with the blanket
`except Exception` mapping any exception `e` to
`_send_error(500, f"Error processing image: \x7bstr(e)\x7d")`. -/
def doPOST (imp : Except String Unit) (apiKey : Option String)
    (loads : List Nat → LoadsOutcome)
    (generate : List Part → Except String String)
    (req : Request) : Response :=
  match doPOSTBody imp apiKey loads generate req with
  | Except.ok r => r
  | Except.error e => sendError 500 ("Error processing image: " ++ e)

/-- Model of `do_GET` (lines 34-45): the health check, which consults
neither the environment nor the request. -/
def doGET (env : Option String) (req : GetRequest) : Response :=
  sendJson 200 (Json.obj
    [("status", Json.str "ok"),
     ("service", Json.str "nexus-vision-api"),
     ("version", Json.str "1.0.0")])

/-! ## Base64 round trip -/

/-- Value of the character encoding a sextet below 64. -/
theorem sextetChar_val (n : Nat) (h : n < 64) : b64charVal (sextetChar n) = some n := by
  have key : ∀ m : Fin 64, b64charVal (sextetChar m.val) = some m.val := by decide
  exact key ⟨n, h⟩

theorem b64AlphabetList_length : b64AlphabetList.length = 64 := rfl

theorem sextetChar_of_ge {n : Nat} (h : 64 ≤ n) : sextetChar n = 'A' := by
  unfold sextetChar
  apply List.getD_eq_default
  rw [b64AlphabetList_length]
  exact h

theorem keepChar_sextetChar (n : Nat) : keepChar (sextetChar n) = true := by
  rcases Nat.lt_or_ge n 64 with h | h
  · unfold keepChar
    rw [sextetChar_val n h]
    rfl
  · rw [sextetChar_of_ge h]
    rfl

theorem keepChar_pad : keepChar '=' = true := rfl

theorem notPad_sextetChar {n : Nat} (h : n < 64) : notPad (sextetChar n) = true := by
  have hv := sextetChar_val n h
  unfold notPad
  by_contra hc
  have heq : sextetChar n = '=' := by
    simpa [bne] using hc
  rw [heq] at hv
  have hnone : b64charVal '=' = none := rfl
  rw [hnone] at hv
  cases hv

theorem notPad_pad : notPad '=' = false := rfl

theorem enc_filter : ∀ bs : List Nat, (b64encodeChars bs).filter keepChar = b64encodeChars bs
  | [] => rfl
  | [a] => by
      simp [b64encodeChars, List.filter_cons, keepChar_sextetChar, keepChar_pad]
  | [a, b] => by
      simp [b64encodeChars, List.filter_cons, keepChar_sextetChar, keepChar_pad]
  | a :: b :: c :: rest => by
      have ih := enc_filter rest
      simp only [b64encodeChars, List.filter_cons, keepChar_sextetChar, if_true]
      rw [ih]

theorem enc_length_mod4 : ∀ bs : List Nat, (b64encodeChars bs).length % 4 = 0
  | [] => rfl
  | [a] => by simp [b64encodeChars]
  | [a, b] => by simp [b64encodeChars]
  | a :: b :: c :: rest => by
      have ih := enc_length_mod4 rest
      simp [b64encodeChars] at ih ⊢
      omega

theorem encSextets_length_mod4 : ∀ bs : List Nat, (encSextets bs).length % 4 ≠ 1
  | [] => by simp [encSextets]
  | [a] => by simp [encSextets]
  | [a, b] => by simp [encSextets]
  | a :: b :: c :: rest => by
      have ih := encSextets_length_mod4 rest
      simp [encSextets] at ih ⊢
      omega

theorem enc_data_sextets : ∀ bs : List Nat, (∀ x ∈ bs, x < 256) →
    ((b64encodeChars bs).takeWhile notPad).filterMap b64charVal = encSextets bs
  | [], _ => rfl
  | [a], h => by
      have ha : a < 256 := h a (by simp)
      have h1 : a / 4 < 64 := by omega
      have h2 : (a % 4) * 16 < 64 := by omega
      simp [b64encodeChars, encSextets, List.takeWhile_cons, List.filterMap_cons,
        notPad_sextetChar h1, notPad_sextetChar h2, notPad_pad,
        sextetChar_val _ h1, sextetChar_val _ h2]
  | [a, b], h => by
      have ha : a < 256 := h a (by simp)
      have hb : b < 256 := h b (by simp)
      have h1 : a / 4 < 64 := by omega
      have h2 : (a % 4) * 16 + b / 16 < 64 := by omega
      have h3 : (b % 16) * 4 < 64 := by omega
      simp [b64encodeChars, encSextets, List.takeWhile_cons, List.filterMap_cons,
        notPad_sextetChar h1, notPad_sextetChar h2, notPad_sextetChar h3, notPad_pad,
        sextetChar_val _ h1, sextetChar_val _ h2, sextetChar_val _ h3]
  | a :: b :: c :: rest, h => by
      have ha : a < 256 := h a (by simp)
      have hb : b < 256 := h b (by simp)
      have hc : c < 256 := h c (by simp)
      have ih := enc_data_sextets rest (fun x hx => h x (by simp [hx]))
      have h1 : a / 4 < 64 := by omega
      have h2 : (a % 4) * 16 + b / 16 < 64 := by omega
      have h3 : (b % 16) * 4 + c / 64 < 64 := by omega
      have h4 : c % 64 < 64 := by omega
      simp only [b64encodeChars, encSextets, List.takeWhile_cons,
        notPad_sextetChar h1, notPad_sextetChar h2, notPad_sextetChar h3, notPad_sextetChar h4,
        if_true, List.filterMap_cons,
        sextetChar_val _ h1, sextetChar_val _ h2, sextetChar_val _ h3, sextetChar_val _ h4]
      rw [ih]

theorem decode_encSextets : ∀ bs : List Nat, (∀ x ∈ bs, x < 256) →
    decodeSextets (encSextets bs) = bs
  | [], _ => rfl
  | [a], h => by
      have ha : a < 256 := h a (by simp)
      simp [encSextets, decodeSextets]
      omega
  | [a, b], h => by
      have ha : a < 256 := h a (by simp)
      have hb : b < 256 := h b (by simp)
      simp [encSextets, decodeSextets]
      constructor
      · omega
      · omega
  | a :: b :: c :: rest, h => by
      have ha : a < 256 := h a (by simp)
      have hb : b < 256 := h b (by simp)
      have hc : c < 256 := h c (by simp)
      have ih := decode_encSextets rest (fun x hx => h x (by simp [hx]))
      simp only [encSextets, decodeSextets, List.cons.injEq]
      refine ⟨by omega, by omega, by omega, ih⟩

theorem b64_roundtrip (bs : List Nat) (h : ∀ x ∈ bs, x < 256) :
    b64decode (b64encode bs) = Except.ok bs := by
  unfold b64decode b64encode
  have hdata : (String.mk (b64encodeChars bs)).data = b64encodeChars bs := rfl
  rw [hdata, enc_filter bs, enc_data_sextets bs h, decode_encSextets bs h]
  have hc1 : ((b64encodeChars bs).length % 4 == 0) = true := by
    simp [enc_length_mod4 bs]
  have hc2 : ((encSextets bs).length % 4 == 1) = false := by
    simp [encSextets_length_mod4 bs]
  simp [hc1, hc2]

/-! ## Substring characterization -/

theorem startsWithL_iff : ∀ (n h : List Char), startsWithL n h = true ↔ ∃ t, h = n ++ t
  | [], h => by simp [startsWithL]
  | a :: as, [] => by simp [startsWithL]
  | a :: as, b :: bs => by
      simp only [startsWithL, Bool.and_eq_true, beq_iff_eq, List.cons_append]
      constructor
      · rintro ⟨rfl, hs⟩
        obtain ⟨t, rfl⟩ := (startsWithL_iff as bs).mp hs
        exact ⟨t, rfl⟩
      · rintro ⟨t, ht⟩
        injection ht with h1 h2
        exact ⟨h1.symm, (startsWithL_iff as bs).mpr ⟨t, h2⟩⟩

theorem containsSubL_iff : ∀ (hay n : List Char),
    containsSubL n hay = true ↔ ∃ pre post, hay = pre ++ n ++ post
  | [], n => by
      simp only [containsSubL, List.isEmpty_iff]
      constructor
      · rintro rfl
        exact ⟨[], [], rfl⟩
      · rintro ⟨pre, post, hp⟩
        rcases List.append_eq_nil.mp hp.symm with ⟨hpn, hpost⟩
        rcases List.append_eq_nil.mp hpn with ⟨hpre, hn⟩
        exact hn
  | c :: rest, n => by
      simp only [containsSubL, Bool.or_eq_true]
      constructor
      · rintro (hs | hr)
        · obtain ⟨t, ht⟩ := (startsWithL_iff n (c :: rest)).mp hs
          exact ⟨[], t, by simp [ht]⟩
        · obtain ⟨pre, post, hp⟩ := (containsSubL_iff rest n).mp hr
          exact ⟨c :: pre, post, by simp [hp]⟩
      · rintro ⟨pre, post, hp⟩
        cases pre with
        | nil =>
            left
            exact (startsWithL_iff n (c :: rest)).mpr ⟨post, by simpa using hp⟩
        | cons p ps =>
            right
            simp only [List.cons_append] at hp
            injection hp with h1 h2
            exact (containsSubL_iff rest n).mpr ⟨ps, post, h2⟩

theorem containsSub_iff (hay needle : String) :
    containsSub hay needle = true ↔ ∃ pre post, hay.data = pre ++ needle.data ++ post :=
  containsSubL_iff hay.data needle.data

/-! ## Handler lemmas -/

theorem parseStage_inl (loads : List Nat → LoadsOutcome) (body : List Nat) (r : Response)
    (h : parseStage loads body = Except.ok (Sum.inl r)) :
    r = sendError 400 missingImageMsg := by
  unfold parseStage at h
  split at h
  · simp at h
  · simp at h
  · rename_i data heq
    split at h
    · rename_i fields
      split at h
      · simp at h
        exact h.symm
      · split at h
        · simp at h
          exact h.symm
        · simp at h
    · simp at h

theorem doPOSTBody_ok_status (imp : Except String Unit) (apiKey : Option String)
    (loads : List Nat → LoadsOutcome) (generate : List Part → Except String String)
    (req : Request) (r : Response)
    (h : doPOSTBody imp apiKey loads generate req = Except.ok r) :
    r.status = 200 ∨ r.status = 400 ∨ r.status = 500 := by
  unfold doPOSTBody at h
  split at h
  · simp at h
  · split at h
    · simp at h
      rw [← h]
      right; right; rfl
    · split at h
      · simp at h
        rw [← h]
        right; left; rfl
      · split at h
        · simp at h
        · rename_i resp hps
          simp at h
          rw [← h]
          rw [parseStage_inl loads _ resp hps]
          right; left; rfl
        · split at h
          · simp at h
          · split at h
            · simp at h
            · simp at h
              rw [← h]
              left; rfl

/-! ## Claims -/

/-- C1: for every POST request that reaches the inference step (import
succeeded, API key configured, nonzero declared length, the JSON-parsing
step produced a payload and the base64 decode succeeded) and for every text
returned by the Vision Inference Service, the handler responds 200 with a
JSON body where `success` is true, `extracted_text` equals the returned
text with leading and trailing whitespace stripped, and `is_signal` is true
iff the stripped text does not contain the literal substring
`NO_SIGNAL_FOUND` (the second conjunct makes the iff explicit).  The
inference call receives exactly two ordered parts: the fixed extraction
prompt and the image bytes tagged `image/jpeg`. -/
theorem post_success (k : String) (loads : List Nat → LoadsOutcome)
    (generate : List Part → Except String String) (req : Request) (n : Nat)
    (payload : Payload) (bytes : List Nat) (text : String)
    (hk : k ≠ "") (hn : req.contentLength = some n) (hn0 : n ≠ 0)
    (hp : parseStage loads (req.body.take n) = Except.ok (Sum.inr payload))
    (hd : decodePayload payload = Except.ok bytes)
    (hg : generate [Part.text SIGNAL_EXTRACTION_PROMPT, Part.inlineData "image/jpeg" bytes] =
      Except.ok text) :
    doPOST (Except.ok ()) (some k) loads generate req =
      sendJson 200 (Json.obj
        [("success", Json.bool true),
         ("extracted_text", Json.str (pyStrip text)),
         ("is_signal", Json.bool (!(containsSub (pyStrip text) "NO_SIGNAL_FOUND")))]) ∧
    ((!(containsSub (pyStrip text) "NO_SIGNAL_FOUND")) = true ↔
      ¬ ∃ pre post, (pyStrip text).data = pre ++ "NO_SIGNAL_FOUND".data ++ post) := by
  constructor
  · unfold doPOST doPOSTBody
    simp [Option.getD, hk, hn, hn0, hp, hd, hg]
  · constructor
    · intro hb hex
      have hc := (containsSub_iff (pyStrip text) "NO_SIGNAL_FOUND").mpr hex
      rw [hc] at hb
      simp at hb
    · intro hnex
      by_contra hb
      have hc : containsSub (pyStrip text) "NO_SIGNAL_FOUND" = true := by
        rcases hcs : containsSub (pyStrip text) "NO_SIGNAL_FOUND" with _ | _
        · rw [hcs] at hb
          simp at hb
        · rfl
      exact hnex ((containsSub_iff (pyStrip text) "NO_SIGNAL_FOUND").mp hc)

/-- Witness for C1: a stub inference service returning exactly
`NO_SIGNAL_FOUND` yields 200, success true and `is_signal` false
(here the request body is the JSON text for an object with an `image`
field holding the base64 text of the bytes `hi`). -/
theorem post_success_witness :
    doPOST (Except.ok ()) (some "key")
      (fun _ => LoadsOutcome.ok (Json.obj [("image", Json.str "aGk=")]))
      (fun _ => Except.ok "NO_SIGNAL_FOUND")
      { contentLength := some 2, body := [123, 125] } =
      sendJson 200 (Json.obj
        [("success", Json.bool true),
         ("extracted_text", Json.str "NO_SIGNAL_FOUND"),
         ("is_signal", Json.bool false)]) := by
  have h := (post_success "key"
      (fun _ => LoadsOutcome.ok (Json.obj [("image", Json.str "aGk=")]))
      (fun _ => Except.ok "NO_SIGNAL_FOUND")
      { contentLength := some 2, body := [123, 125] } 2
      (Payload.fromJson (Json.str "aGk=")) [104, 105] "NO_SIGNAL_FOUND"
      (by decide) rfl (by decide) rfl rfl rfl).1
  exact h

/-- C2: for every POST request, if the environment variable GEMINI_API_KEY
is absent or empty, the handler responds 500 with body
`success false, error "GEMINI_API_KEY not configured"` and performs no
further work: the result is the same constant for every `json.loads`
oracle, every inference oracle and every request, so the Vision Inference
Service is never configured or invoked and the body is never read.  The
dynamic module import (which the source places before the key check) is
assumed to succeed, reflecting a deployment with the library installed. -/
theorem post_missing_api_key (apiKey : Option String)
    (loads : List Nat → LoadsOutcome) (generate : List Part → Except String String)
    (req : Request) (hk : apiKey.getD "" = "") :
    doPOST (Except.ok ()) apiKey loads generate req =
      sendError 500 "GEMINI_API_KEY not configured" := by
  unfold doPOST doPOSTBody
  simp [hk]

/-- Witness for C2 at a concrete unset key, request and oracles. -/
theorem post_missing_api_key_witness :
    doPOST (Except.ok ()) none (fun _ => LoadsOutcome.otherErr "x")
      (fun _ => Except.error "y") { contentLength := some 3, body := [1, 2, 3] } =
      sendError 500 "GEMINI_API_KEY not configured" :=
  post_missing_api_key none _ _ _ rfl

/-- C3: for every POST request whose non-empty body parses as a JSON
object, if the `image` field is missing or its value is falsy (in
particular the empty string), the handler responds 400 with error message
`Missing \x27image\x27 field in request`. -/
theorem post_missing_image_field (k : String) (loads : List Nat → LoadsOutcome)
    (generate : List Part → Except String String) (req : Request) (n : Nat)
    (fields : List (String × Json))
    (hk : k ≠ "") (hn : req.contentLength = some n) (hn0 : n ≠ 0)
    (hp : loads (req.body.take n) = LoadsOutcome.ok (Json.obj fields))
    (hf : pyFalsyOpt (lookupField fields "image") = true) :
    doPOST (Except.ok ()) (some k) loads generate req =
      sendError 400 "Missing \x27image\x27 field in request" := by
  have hps : parseStage loads (req.body.take n) =
      Except.ok (Sum.inl (sendError 400 missingImageMsg)) := by
    unfold parseStage
    rw [hp]
    rcases hlf : lookupField fields "image" with _ | v
    · simp [hlf]
    · have hfv : jsonFalsy v = true := by simpa [pyFalsyOpt, hlf] using hf
      simp [hlf, hfv]
  unfold doPOST doPOSTBody
  simp [Option.getD, hk, hn, hn0, hps, missingImageMsg]

/-- Witness for C3: the JSON body of an empty object (no `image` key). -/
theorem post_missing_image_field_witness :
    doPOST (Except.ok ()) (some "key") (fun _ => LoadsOutcome.ok (Json.obj []))
      (fun _ => Except.ok "t") { contentLength := some 2, body := [123, 125] } =
      sendError 400 "Missing \x27image\x27 field in request" :=
  post_missing_image_field "key" _ _ _ 2 [] (by decide) rfl (by decide) rfl rfl

/-- C4, counterexample to the claim as stated: a body that is not valid
JSON does not always take the raw-body base64 fallback.  The body `0xff`
(the first byte of any JPEG) is not valid UTF-8, so `json.loads` raises
`UnicodeDecodeError`, which the inner `except json.JSONDecodeError` of the
source does not catch: the parsing step propagates the exception instead
of producing the re-encoded raw payload, and the request ends in the
blanket 500 path. -/
theorem post_raw_body_counterexample :
    parseStage
      (fun _ => LoadsOutcome.otherErr
        "utf-8 codec cannot decode byte 0xff in position 0: invalid start byte") [255] ≠
      Except.ok (Sum.inr (Payload.raw (b64encode [255]))) ∧
    doPOST (Except.ok ()) (some "key")
      (fun _ => LoadsOutcome.otherErr
        "utf-8 codec cannot decode byte 0xff in position 0: invalid start byte")
      (fun _ => Except.ok "XAUUSD BUY @ 2350")
      { contentLength := some 1, body := [255] } =
      sendError 500
        "Error processing image: utf-8 codec cannot decode byte 0xff in position 0: invalid start byte" := by
  constructor
  · intro h
    have heval : parseStage
        (fun _ => LoadsOutcome.otherErr
          "utf-8 codec cannot decode byte 0xff in position 0: invalid start byte") [255] =
        Except.error "utf-8 codec cannot decode byte 0xff in position 0: invalid start byte" := rfl
    rw [heval] at h
    cases h
  · rfl

/-- C4 as amended: for every POST request body on which `json.loads` fails
with a JSON syntax error (`json.JSONDecodeError`), the entire raw body is
re-encoded to base64 text and used as the image payload, and decoding that
payload at the decode step yields exactly the original raw body bytes;
bodies on which `json.loads` raises any other exception (such as
`UnicodeDecodeError` on non-UTF-8 bytes) instead propagate to the blanket
500 path. -/
theorem post_raw_body_fallback (loads : List Nat → LoadsOutcome) (body : List Nat)
    (hb : ∀ x ∈ body, x < 256) :
    (∀ e, loads body = LoadsOutcome.jsonErr e →
      parseStage loads body = Except.ok (Sum.inr (Payload.raw (b64encode body))) ∧
      decodePayload (Payload.raw (b64encode body)) = Except.ok body) ∧
    (∀ m, loads body = LoadsOutcome.otherErr m →
      parseStage loads body = Except.error m) := by
  constructor
  · intro e he
    constructor
    · unfold parseStage
      rw [he]
    · show b64decode (b64encode body) = Except.ok body
      exact b64_roundtrip body hb
  · intro m hm
    unfold parseStage
    rw [hm]

/-- Witness for the amended C4: the bytes of the text `hi` are not valid
JSON, and re-encoding then decoding them is the identity. -/
theorem post_raw_body_fallback_witness :
    parseStage (fun _ => LoadsOutcome.jsonErr "Expecting value: line 1 column 1 (char 0)")
      [104, 105] = Except.ok (Sum.inr (Payload.raw (b64encode [104, 105]))) ∧
    decodePayload (Payload.raw (b64encode [104, 105])) = Except.ok [104, 105] :=
  (post_raw_body_fallback
    (fun _ => LoadsOutcome.jsonErr "Expecting value: line 1 column 1 (char 0)")
    [104, 105] (by decide)).1 "Expecting value: line 1 column 1 (char 0)" rfl

/-- C5: for every POST request with the API key configured, a declared
Content-Length of zero yields 400 with error message
`No image data provided`; the result is the same constant for every body
and every oracle, so no body is read and no inference call happens. -/
theorem post_zero_content_length (k : String) (hk : k ≠ "")
    (loads : List Nat → LoadsOutcome) (generate : List Part → Except String String)
    (body : List Nat) :
    doPOST (Except.ok ()) (some k) loads generate { contentLength := some 0, body := body } =
      sendError 400 "No image data provided" := by
  unfold doPOST doPOSTBody
  simp [Option.getD, hk]

/-- Witness for C5 at a concrete key, oracles and body. -/
theorem post_zero_content_length_witness :
    doPOST (Except.ok ()) (some "key") (fun _ => LoadsOutcome.otherErr "x")
      (fun _ => Except.ok "t") { contentLength := some 0, body := [9, 9] } =
      sendError 400 "No image data provided" :=
  post_zero_content_length "key" (by decide) _ _ [9, 9]

/-- C6: for every GET request, regardless of path, query string, headers
or environment, the handler responds 200 with Content-Type
`application/json`, Access-Control-Allow-Origin `*` and the health body
with fields status `ok`, service `nexus-vision-api`, version `1.0.0`;
`doGET` is a pure constant function, so there are no side effects. -/
theorem get_health (env : Option String) (req : GetRequest) :
    doGET env req = Response.mk 200 "application/json" "*"
      (Json.obj [("status", Json.str "ok"), ("service", Json.str "nexus-vision-api"),
        ("version", Json.str "1.0.0")]) := rfl

/-- C7: every POST request terminates with exactly one response whose
status is 200, 400 or 500 (the model is a total function, so termination
and single response are structural), and any exception raised at any step,
including the dynamic module import, the base64 decode and the inference
call, is caught and mapped to a 500 response whose error message is
`Error processing image: ` followed by the exception message. -/
theorem post_single_response (imp : Except String Unit) (apiKey : Option String)
    (loads : List Nat → LoadsOutcome) (generate : List Part → Except String String)
    (req : Request) :
    ((doPOST imp apiKey loads generate req).status = 200 ∨
     (doPOST imp apiKey loads generate req).status = 400 ∨
     (doPOST imp apiKey loads generate req).status = 500) ∧
    (∀ e, doPOSTBody imp apiKey loads generate req = Except.error e →
      doPOST imp apiKey loads generate req =
        sendError 500 ("Error processing image: " ++ e)) := by
  constructor
  · unfold doPOST
    rcases hb : doPOSTBody imp apiKey loads generate req with e | r
    · right; right; rfl
    · exact doPOSTBody_ok_status imp apiKey loads generate req r hb
  · intro e he
    unfold doPOST
    rw [he]

/-- Witness for C7: a failing dynamic import is mapped to the blanket 500
response. -/
theorem post_single_response_witness :
    doPOST (Except.error "boom") none (fun _ => LoadsOutcome.otherErr "x")
      (fun _ => Except.error "y") { contentLength := none, body := [] } =
      sendError 500 ("Error processing image: " ++ "boom") :=
  (post_single_response (Except.error "boom") none _ _ _).2 "boom" rfl

/-- C8: the POST handler is deterministic: two runs with the same import
outcome, the same environment, requests with equal headers and bodies, and
oracles that agree pointwise (identical `json.loads` behavior and identical
Vision Inference Service output) produce identical responses; no hidden
state exists, as the handler is a pure function of these inputs. -/
theorem post_deterministic (imp : Except String Unit) (apiKey : Option String)
    (loads₁ loads₂ : List Nat → LoadsOutcome)
    (gen₁ gen₂ : List Part → Except String String)
    (req₁ req₂ : Request)
    (hl : ∀ b, loads₁ b = loads₂ b) (hg : ∀ p, gen₁ p = gen₂ p)
    (hcl : req₁.contentLength = req₂.contentLength) (hb : req₁.body = req₂.body) :
    doPOST imp apiKey loads₁ gen₁ req₁ = doPOST imp apiKey loads₂ gen₂ req₂ := by
  have hl2 : loads₁ = loads₂ := funext hl
  have hg2 : gen₁ = gen₂ := funext hg
  have hr : req₁ = req₂ := by
    cases req₁
    cases req₂
    simp_all
  rw [hl2, hg2, hr]

/-- Witness for C8 at concrete equal inputs. -/
theorem post_deterministic_witness :
    doPOST (Except.ok ()) (some "key") (fun _ => LoadsOutcome.otherErr "x")
      (fun _ => Except.ok "t") { contentLength := some 1, body := [0] } =
    doPOST (Except.ok ()) (some "key") (fun _ => LoadsOutcome.otherErr "x")
      (fun _ => Except.ok "t") { contentLength := some 1, body := [0] } :=
  post_deterministic (Except.ok ()) (some "key") _ _ _ _ _ _
    (fun _ => rfl) (fun _ => rfl) rfl rfl

/-- C9: for every POST request with the API key configured, an absent
Content-Length header defaults to 0 and the handler responds 400 with
error message `No image data provided`, exactly as for an explicit
Content-Length of zero (second conjunct). -/
theorem post_absent_content_length (k : String) (hk : k ≠ "")
    (loads : List Nat → LoadsOutcome) (generate : List Part → Except String String)
    (body : List Nat) :
    doPOST (Except.ok ()) (some k) loads generate { contentLength := none, body := body } =
      sendError 400 "No image data provided" ∧
    doPOST (Except.ok ()) (some k) loads generate { contentLength := none, body := body } =
      doPOST (Except.ok ()) (some k) loads generate { contentLength := some 0, body := body } := by
  constructor
  · unfold doPOST doPOSTBody
    simp [Option.getD, hk]
  · unfold doPOST doPOSTBody
    simp [Option.getD, hk]

/-- Witness for C9 at a concrete key, oracles and body. -/
theorem post_absent_content_length_witness :
    doPOST (Except.ok ()) (some "key") (fun _ => LoadsOutcome.otherErr "x")
      (fun _ => Except.ok "t") { contentLength := none, body := [7] } =
      sendError 400 "No image data provided" ∧
    doPOST (Except.ok ()) (some "key") (fun _ => LoadsOutcome.otherErr "x")
      (fun _ => Except.ok "t") { contentLength := none, body := [7] } =
    doPOST (Except.ok ()) (some "key") (fun _ => LoadsOutcome.otherErr "x")
      (fun _ => Except.ok "t") { contentLength := some 0, body := [7] } :=
  post_absent_content_length "key" (by decide) _ _ [7]

/-- C10: for every POST request whose non-empty body parses as valid JSON
that is not an object (array, number, string, boolean or null), the
handler neither returns the 400 missing-image response nor applies the
raw-body base64 fallback: the parsing step propagates the
`AttributeError` from `data.get`, and the blanket handler returns 500 with
message `Error processing image: ` followed by the exception message. -/
theorem post_non_object_json (k : String) (loads : List Nat → LoadsOutcome)
    (generate : List Part → Except String String) (req : Request) (n : Nat) (v : Json)
    (hk : k ≠ "") (hn : req.contentLength = some n) (hn0 : n ≠ 0)
    (hp : loads (req.body.take n) = LoadsOutcome.ok v)
    (hobj : jsonIsObj v = false) :
    parseStage loads (req.body.take n) = Except.error (noGetAttrMsg v) ∧
    doPOST (Except.ok ()) (some k) loads generate req =
      sendError 500 ("Error processing image: " ++ noGetAttrMsg v) := by
  have hps : parseStage loads (req.body.take n) = Except.error (noGetAttrMsg v) := by
    unfold parseStage
    rw [hp]
    cases v <;> simp_all [jsonIsObj]
  refine ⟨hps, ?_⟩
  unfold doPOST doPOSTBody
  simp [Option.getD, hk, hn, hn0, hps]

/-- Witness for C10: the JSON body of an empty array. -/
theorem post_non_object_json_witness :
    parseStage (fun _ => LoadsOutcome.ok (Json.arr [])) [91, 93] =
      Except.error (noGetAttrMsg (Json.arr [])) ∧
    doPOST (Except.ok ()) (some "key") (fun _ => LoadsOutcome.ok (Json.arr []))
      (fun _ => Except.ok "t") { contentLength := some 2, body := [91, 93] } =
      sendError 500 ("Error processing image: " ++ noGetAttrMsg (Json.arr [])) :=
  post_non_object_json "key" (fun _ => LoadsOutcome.ok (Json.arr []))
    (fun _ => Except.ok "t") { contentLength := some 2, body := [91, 93] } 2
    (Json.arr []) (by decide) rfl (by decide) rfl rfl

end NexusVision
